import Mathlib

/-!
Verification of the octree chunk core
(`napari/layers/image/experimental/octree_chunk.py`).

The embedding models the Python module shallowly:
* numpy arrays become `List Int` of their entries; any other array-like
  value (a Dask array or similar deferred reference) is tagged `deferred`
  with an opaque reference id, so `isinstance(data, np.ndarray)` becomes
  the `isNdarray` discriminator and Python reference equality on retained
  deferred objects becomes equality of the tagged values;
* exception-raising code (`assert`, a `TypeError` from a constructor call
  with the wrong arity, an `IndexError` from indexing) returns
  `Except String _`;
* mutation of an `OctreeChunk` becomes explicit state passing: each
  Python statement block that mutates the object is one Lean function
  from the old chunk value to the new one.
-/

/-- A Python value as it appears at the call sites modelled here: either an
`int` or a numpy array (modelled by its list of entries). -/
inductive PyVal where
  | int (n : Int)
  | array (xs : List Int)
deriving DecidableEq, Hashable, Repr

/-- `OctreeChunkGeom`: position and scale of the chunk, for rendering.
Both fields are numpy arrays in the source; they are modelled by their
entry lists. -/
structure OctreeChunkGeom where
  pos : List Int
  scale : List Int
deriving DecidableEq, Hashable, Repr

/-- `OctreeLocation`: location of one chunk within the octree, a
`NamedTuple` with fields `slice_id`, `level_index`, `row`, `col`.
Python `NamedTuple` fields are not type-checked at runtime, so the fields
are modelled as arbitrary Python values. -/
structure OctreeLocation where
  slice_id : PyVal
  level_index : PyVal
  row : PyVal
  col : PyVal
deriving DecidableEq, Hashable, Repr

/-- The `OctreeLocation` tuple constructor applied to a list of positional
arguments, as a Python call `cls(...)` applies it: a `NamedTuple` with four
fields accepts exactly four positional arguments and raises `TypeError`
for any other count. -/
def OctreeLocation.new (args : List PyVal) : Except String OctreeLocation :=
  match args with
  | [a, b, c, d] => .ok ⟨a, b, c, d⟩
  | _ => .error "TypeError"

/-- `OctreeLocation.create_null`: the source body is
`return cls(0, 0, 0, 0, np.zeros(0), np.zeros(0))` — six positional
arguments to the four-field tuple constructor. -/
def OctreeLocation.create_null : Except String OctreeLocation :=
  OctreeLocation.new
    [.int 0, .int 0, .int 0, .int 0, .array [], .array []]

/-- The chunk's data slot: either a deferred (not yet materialized)
array-like reference, e.g. a Dask array, or an in-memory numpy `ndarray`. -/
inductive ArrayLike where
  | deferred (ref : Nat)
  | ndarray (arr : List Int)
deriving DecidableEq, Hashable, Repr

/-- `isinstance(data, np.ndarray)`. -/
def ArrayLike.isNdarray : ArrayLike → Bool
  | .ndarray _ => true
  | .deferred _ => false

/-- `OctreeChunk`: the mutable chunk object. Field names follow the
source attributes (`_data`, `_orig_data`, `location`, `geom`, `loading`). -/
structure OctreeChunk where
  _data : ArrayLike
  _orig_data : ArrayLike
  location : OctreeLocation
  geom : OctreeChunkGeom
  loading : Bool
deriving DecidableEq, Repr

/-- `OctreeChunk.__init__(data, location, geom)`: stores `data` both as the
current data and as `_orig_data`, and starts with `loading = False`. -/
def OctreeChunk.init
    (data : ArrayLike) (location : OctreeLocation) (geom : OctreeChunkGeom) :
    OctreeChunk :=
  { _data := data, _orig_data := data, location := location, geom := geom,
    loading := false }

/-- The `data` property getter: returns `self._data`. -/
def OctreeChunk.data (c : OctreeChunk) : ArrayLike :=
  c._data

/-- The `data` property setter: `assert isinstance(data, np.ndarray)`,
then `self._data = data; self.loading = False`. The failed assert raises
(`AssertionError`) before any field is written. -/
def OctreeChunk.set_data (c : OctreeChunk) (d : ArrayLike) :
    Except String OctreeChunk :=
  if d.isNdarray then
    .ok { c with _data := d, loading := false }
  else
    .error "AssertionError"

/-- The state of the chunk object after an attempted `chunk.data = d`: on
success the updated object, on `AssertionError` the object as it was (the
exception propagates before any mutation). -/
def OctreeChunk.apply_set_data (c : OctreeChunk) (d : ArrayLike) :
    OctreeChunk :=
  match c.set_data d with
  | .ok c' => c'
  | .error _ => c

/-- Assignment to the public `loading` attribute (`chunk.loading = b`),
done externally when a load is enqueued. -/
def OctreeChunk.set_loading (c : OctreeChunk) (b : Bool) : OctreeChunk :=
  { c with loading := b }

/-- The `in_memory` property: `isinstance(self.data, np.ndarray)`. -/
def OctreeChunk.in_memory (c : OctreeChunk) : Bool :=
  c.data.isNdarray

/-- The `needs_load` property: `not self.in_memory and not self.loading`. -/
def OctreeChunk.needs_load (c : OctreeChunk) : Bool :=
  !c.in_memory && !c.loading

/-- `OctreeChunk.clear()`: `self._data = self._orig_data;
self.loading = False`. -/
def OctreeChunk.clear (c : OctreeChunk) : OctreeChunk :=
  { c with _data := c._orig_data, loading := false }

/-- The `key` property: the tuple
`(self.geom.pos[0], self.geom.pos[1], self.location.level_index)`.
Indexing a numpy array with fewer than two entries raises `IndexError`. -/
def OctreeChunk.key (c : OctreeChunk) :
    Except String (Int × Int × PyVal) :=
  match c.geom.pos with
  | a :: b :: _ => .ok (a, b, c.location.level_index)
  | _ => .error "IndexError"

/-- One externally driven mutation of a chunk: set the `loading` flag,
assign a materialized numpy array via the `data` setter, or `clear()`. -/
inductive ChunkOp where
  | set_loading (b : Bool)
  | assign (arr : List Int)
  | clear_op
deriving DecidableEq, Repr

/-- Apply one operation to the chunk state. -/
def OctreeChunk.apply_op (c : OctreeChunk) : ChunkOp → OctreeChunk
  | .set_loading b => c.set_loading b
  | .assign arr => c.apply_set_data (.ndarray arr)
  | .clear_op => c.clear

/-- Apply a sequence of operations, left to right. -/
def OctreeChunk.run (c : OctreeChunk) : List ChunkOp → OctreeChunk
  | [] => c
  | op :: ops => (c.apply_op op).run ops

/-- Modelled from the spec: the generic `ChunkKey` base class lives in
`napari/components/experimental/chunk`, which is not part of this source
fragment. Per the spec it holds the owning view's opaque hashable identity
(`owner_id`) and the ordered tuple of optional range selectors
(`index_tuple`), and its hash values are a pure function of those two. -/
structure ChunkKey where
  owner_id : Nat
  indices : List (Option (Int × Int))
deriving DecidableEq, Hashable, Repr

/-- Modelled from the spec: `ChunkKey._get_hash_values()` returns the
tuple of the two identity components. -/
def ChunkKey.get_hash_values (k : ChunkKey) :
    Nat × List (Option (Int × Int)) :=
  (k.owner_id, k.indices)

/-- `OctreeChunkKey`: a `ChunkKey` extended with the chunk's
`OctreeLocation` (`__init__` stores `location` and forwards
`(layer, indices)` to the parent). -/
structure OctreeChunkKey extends ChunkKey where
  location : OctreeLocation
deriving DecidableEq, Hashable, Repr

/-- `OctreeChunkKey._get_hash_values()`: `super()._get_hash_values() +
(self.location,)` — the parent tuple extended with the location. -/
def OctreeChunkKey.get_hash_values (k : OctreeChunkKey) :
    (Nat × List (Option (Int × Int))) × OctreeLocation :=
  (k.toChunkKey.get_hash_values, k.location)

/-- The hash a `ChunkKey`-based cache computes for an `OctreeChunkKey`:
a pure function (Python's tuple hash, modelled by Lean's `hash`) of the
`_get_hash_values()` tuple. -/
def OctreeChunkKey.key_hash (k : OctreeChunkKey) : UInt64 :=
  hash k.get_hash_values

/-- Building the cache identity of a chunk, as the layer does:
`OctreeChunkKey(layer, indices, chunk.location)`. Only the owner, the
index tuple and the chunk's location flow into it. -/
def chunk_identity (owner : Nat) (indices : List (Option (Int × Int)))
    (c : OctreeChunk) : OctreeChunkKey :=
  { owner_id := owner, indices := indices, location := c.location }

/-- Whether a single operation may be applied in a given state, following
the load-state machine: the `loading` flag is raised only for a chunk whose
data is not yet in memory (the `UNLOADED -> LOADING` transition); lowering
the flag, assigning materialized data and clearing are always allowed. -/
def OctreeChunk.op_legal (c : OctreeChunk) : ChunkOp → Prop
  | .set_loading b => b = true → c.in_memory = false
  | .assign _ => True
  | .clear_op => True

/-- Chunk states reachable from construction with deferred data by
operation sequences that respect `op_legal`. -/
inductive OctreeChunk.ReachableLegal : OctreeChunk → Prop
  | init (d : ArrayLike) (loc : OctreeLocation) (g : OctreeChunkGeom) :
      d.isNdarray = false →
      OctreeChunk.ReachableLegal (OctreeChunk.init d loc g)
  | step (c : OctreeChunk) (op : ChunkOp) :
      OctreeChunk.ReachableLegal c → c.op_legal op →
      OctreeChunk.ReachableLegal (c.apply_op op)

theorem OctreeChunk.apply_op_orig_data (c : OctreeChunk) (op : ChunkOp) :
    (c.apply_op op)._orig_data = c._orig_data := by
  cases op <;> rfl

theorem OctreeChunk.run_orig_data (c : OctreeChunk) (ops : List ChunkOp) :
    (c.run ops)._orig_data = c._orig_data := by
  induction ops generalizing c with
  | nil => rfl
  | cons op ops ih =>
      rw [OctreeChunk.run, ih, OctreeChunk.apply_op_orig_data]

theorem OctreeChunk.apply_op_location (c : OctreeChunk) (op : ChunkOp) :
    (c.apply_op op).location = c.location := by
  cases op <;> rfl

theorem OctreeChunk.run_location (c : OctreeChunk) (ops : List ChunkOp) :
    (c.run ops).location = c.location := by
  induction ops generalizing c with
  | nil => rfl
  | cons op ops ih =>
      rw [OctreeChunk.run, ih, OctreeChunk.apply_op_location]

/-- C1: for every chunk, `needs_load` returns `true` iff `in_memory` is
false and `loading` is false; in the other three combinations of the two
booleans it returns `false`. -/
theorem OctreeChunk.needs_load_iff (c : OctreeChunk) :
    c.needs_load = true ↔ (c.in_memory = false ∧ c.loading = false) := by
  simp [OctreeChunk.needs_load]

/-- C2 counterexample: from a chunk constructed with deferred data, the
operation sequence "assign materialized data, then mark loading" reaches a
state with `in_memory = true` and `loading = true` simultaneously. -/
theorem OctreeChunk.in_memory_and_loading_both_true_cex :
    (((OctreeChunk.init (ArrayLike.deferred 0)
        ⟨.int 0, .int 0, .int 0, .int 0⟩ ⟨[0, 0], [1, 1]⟩).run
      [ChunkOp.assign [1], ChunkOp.set_loading true]).in_memory = true) ∧
    (((OctreeChunk.init (ArrayLike.deferred 0)
        ⟨.int 0, .int 0, .int 0, .int 0⟩ ⟨[0, 0], [1, 1]⟩).run
      [ChunkOp.assign [1], ChunkOp.set_loading true]).loading = true) := by
  decide

/-- C2 (amended): for every chunk reachable from construction with
deferred data by sequences in which the `loading` flag is raised only when
the chunk is not in memory (the state machine's `UNLOADED -> LOADING`
transition), `in_memory = true` implies `loading = false`. -/
theorem OctreeChunk.reachable_in_memory_not_loading (c : OctreeChunk)
    (hr : OctreeChunk.ReachableLegal c) (hm : c.in_memory = true) :
    c.loading = false := by
  induction hr with
  | init d loc g hd =>
      simp [OctreeChunk.init, OctreeChunk.in_memory, OctreeChunk.data,
        hd] at hm
  | step c op hr hl ih =>
      cases op with
      | set_loading b =>
          cases b with
          | false => rfl
          | true =>
              have h0 : c.in_memory = false := hl rfl
              have hm' : c.in_memory = true := hm
              rw [h0] at hm'
              exact Bool.noConfusion hm'
      | assign arr => rfl
      | clear_op => rfl

/-- Witness for C2 (amended): a concrete legally reached loaded chunk has
`loading = false`. -/
theorem OctreeChunk.reachable_in_memory_not_loading_witness :
    ((OctreeChunk.init (ArrayLike.deferred 0)
        ⟨.int 0, .int 0, .int 0, .int 0⟩ ⟨[0, 0], [1, 1]⟩).apply_op
      (ChunkOp.assign [5])).loading = false :=
  OctreeChunk.reachable_in_memory_not_loading _
    (OctreeChunk.ReachableLegal.step _ _
      (OctreeChunk.ReachableLegal.init _ _ _ rfl) trivial)
    rfl

/-- C3: assigning a materialized numpy array through the `data` setter is
one state transformation of the embedding whose single resulting state
stores the new data with `in_memory = true` and `loading = false`; no
state in between the data change and the flag change exists. -/
theorem OctreeChunk.set_data_materialized_one_step (c : OctreeChunk)
    (arr : List Int) :
    ∃ c', c.set_data (ArrayLike.ndarray arr) = Except.ok c' ∧
      c'.data = ArrayLike.ndarray arr ∧ c'.in_memory = true ∧
      c'.loading = false :=
  ⟨{ c with _data := ArrayLike.ndarray arr, loading := false },
    rfl, rfl, rfl, rfl⟩

/-- C4: assigning a value that is not an in-memory numpy array through the
`data` setter fails with `AssertionError`, and the chunk's fields are
unchanged by the failed assignment. -/
theorem OctreeChunk.set_data_rejects_deferred (c : OctreeChunk)
    (d : ArrayLike) (hd : d.isNdarray = false) :
    c.set_data d = Except.error "AssertionError" ∧
      c.apply_set_data d = c := by
  refine ⟨?_, ?_⟩ <;>
    simp [OctreeChunk.set_data, OctreeChunk.apply_set_data, hd]

/-- Witness for C4 at a concrete chunk and a concrete deferred value. -/
theorem OctreeChunk.set_data_rejects_deferred_witness :
    (ArrayLike.deferred 9).isNdarray = false ∧
    ((OctreeChunk.init (ArrayLike.deferred 3)
        ⟨.int 1, .int 2, .int 0, .int 3⟩ ⟨[4, 5], [1, 1]⟩).set_data
      (ArrayLike.deferred 9) = Except.error "AssertionError" ∧
     (OctreeChunk.init (ArrayLike.deferred 3)
        ⟨.int 1, .int 2, .int 0, .int 3⟩ ⟨[4, 5], [1, 1]⟩).apply_set_data
      (ArrayLike.deferred 9) =
      OctreeChunk.init (ArrayLike.deferred 3)
        ⟨.int 1, .int 2, .int 0, .int 3⟩ ⟨[4, 5], [1, 1]⟩) :=
  ⟨rfl, OctreeChunk.set_data_rejects_deferred _ _ rfl⟩

/-- C5: a chunk constructed with a deferred reference `d`, after any
sequence of loading-flag sets, materialized-data assignments and clears,
satisfies after `clear()`: `data` equals the original reference `d`,
`in_memory = false` and `loading = false`. -/
theorem OctreeChunk.clear_restores_original (d : ArrayLike)
    (loc : OctreeLocation) (g : OctreeChunkGeom) (ops : List ChunkOp)
    (hd : d.isNdarray = false) :
    (((OctreeChunk.init d loc g).run ops).clear).data = d ∧
    (((OctreeChunk.init d loc g).run ops).clear).in_memory = false ∧
    (((OctreeChunk.init d loc g).run ops).clear).loading = false := by
  have horig : ((OctreeChunk.init d loc g).run ops)._orig_data = d :=
    OctreeChunk.run_orig_data (OctreeChunk.init d loc g) ops
  refine ⟨horig, ?_, rfl⟩
  simp only [OctreeChunk.in_memory, OctreeChunk.data, OctreeChunk.clear]
  rw [horig]
  exact hd

/-- Witness for C5: the scenario of the spec, run concretely. -/
theorem OctreeChunk.clear_restores_original_witness :
    (ArrayLike.deferred 7).isNdarray = false ∧
    (((((OctreeChunk.init (ArrayLike.deferred 7)
        ⟨.int 1, .int 2, .int 0, .int 3⟩ ⟨[0, 1], [1, 1]⟩).run
      [ChunkOp.set_loading true, ChunkOp.assign [9]]).clear).data =
        ArrayLike.deferred 7) ∧
     ((((OctreeChunk.init (ArrayLike.deferred 7)
        ⟨.int 1, .int 2, .int 0, .int 3⟩ ⟨[0, 1], [1, 1]⟩).run
      [ChunkOp.set_loading true, ChunkOp.assign [9]]).clear).in_memory =
        false) ∧
     ((((OctreeChunk.init (ArrayLike.deferred 7)
        ⟨.int 1, .int 2, .int 0, .int 3⟩ ⟨[0, 1], [1, 1]⟩).run
      [ChunkOp.set_loading true, ChunkOp.assign [9]]).clear).loading =
        false)) :=
  ⟨rfl, OctreeChunk.clear_restores_original _ _ _ _ rfl⟩

/-- C6 (code bug): `OctreeLocation.create_null` passes six positional
arguments to the four-field tuple constructor, so the call raises
`TypeError` instead of returning the all-zero location. -/
theorem OctreeLocation.create_null_raises :
    OctreeLocation.create_null = Except.error "TypeError" :=
  rfl

/-- C7: identities built from equal (owner, index tuple, location) triples
— here from two independently constructed and independently mutated chunks
sharing one location — are equal and hash identically; the identity is a
function of the three components only, untouched by any sequence of
loading-flag sets, data assignments and clears. -/
theorem chunk_identity_pure (owner : Nat)
    (idx : List (Option (Int × Int))) (loc : OctreeLocation)
    (d1 d2 : ArrayLike) (g1 g2 : OctreeChunkGeom)
    (ops1 ops2 : List ChunkOp) :
    chunk_identity owner idx ((OctreeChunk.init d1 loc g1).run ops1) =
      chunk_identity owner idx ((OctreeChunk.init d2 loc g2).run ops2) ∧
    (chunk_identity owner idx
        ((OctreeChunk.init d1 loc g1).run ops1)).key_hash =
      (chunk_identity owner idx
        ((OctreeChunk.init d2 loc g2).run ops2)).key_hash := by
  have h1 : ((OctreeChunk.init d1 loc g1).run ops1).location = loc :=
    OctreeChunk.run_location _ _
  have h2 : ((OctreeChunk.init d2 loc g2).run ops2).location = loc :=
    OctreeChunk.run_location _ _
  constructor
  · simp [chunk_identity, h1, h2]
  · simp [OctreeChunkKey.key_hash, OctreeChunkKey.get_hash_values,
      chunk_identity, h1, h2]

/-- C8 counterexample: two chunks whose geometry positions have three
components share the lightweight `key` (which reads only `pos[0]`,
`pos[1]` and `level_index`) yet their position vectors differ. -/
theorem OctreeChunk.key_consistency_cex :
    (OctreeChunk.init (ArrayLike.deferred 0)
        ⟨.int 1, .int 2, .int 0, .int 3⟩
        ⟨[5, 6, 1], [1, 1, 1]⟩).key =
      (OctreeChunk.init (ArrayLike.deferred 1)
        ⟨.int 1, .int 2, .int 0, .int 3⟩
        ⟨[5, 6, 2], [1, 1, 1]⟩).key ∧
    ¬((OctreeChunk.init (ArrayLike.deferred 0)
        ⟨.int 1, .int 2, .int 0, .int 3⟩
        ⟨[5, 6, 1], [1, 1, 1]⟩).location.level_index =
      (OctreeChunk.init (ArrayLike.deferred 1)
        ⟨.int 1, .int 2, .int 0, .int 3⟩
        ⟨[5, 6, 2], [1, 1, 1]⟩).location.level_index ∧
      (OctreeChunk.init (ArrayLike.deferred 0)
        ⟨.int 1, .int 2, .int 0, .int 3⟩
        ⟨[5, 6, 1], [1, 1, 1]⟩).geom.pos =
      (OctreeChunk.init (ArrayLike.deferred 1)
        ⟨.int 1, .int 2, .int 0, .int 3⟩
        ⟨[5, 6, 2], [1, 1, 1]⟩).geom.pos) := by
  refine ⟨rfl, ?_⟩
  decide

/-- C8 (amended): two chunks whose `key` properties evaluate to the same
tuple agree on `level_index` and on the first two components of the
geometry position (the full position vectors agree whenever the positions
are two-dimensional). -/
theorem OctreeChunk.key_eq_level_and_pos_head (c1 c2 : OctreeChunk)
    (k : Int × Int × PyVal) (h1 : c1.key = Except.ok k)
    (h2 : c2.key = Except.ok k) :
    c1.location.level_index = c2.location.level_index ∧
      c1.geom.pos.take 2 = c2.geom.pos.take 2 := by
  obtain ⟨ka, kb, kl⟩ := k
  cases hp1 : c1.geom.pos with
  | nil => rw [OctreeChunk.key, hp1] at h1; exact Except.noConfusion h1
  | cons a1 r1 =>
    cases r1 with
    | nil => rw [OctreeChunk.key, hp1] at h1; exact Except.noConfusion h1
    | cons b1 t1 =>
      cases hp2 : c2.geom.pos with
      | nil => rw [OctreeChunk.key, hp2] at h2; exact Except.noConfusion h2
      | cons a2 r2 =>
        cases r2 with
        | nil =>
            rw [OctreeChunk.key, hp2] at h2
            exact Except.noConfusion h2
        | cons b2 t2 =>
            rw [OctreeChunk.key, hp1] at h1
            rw [OctreeChunk.key, hp2] at h2
            simp only [Except.ok.injEq, Prod.mk.injEq] at h1 h2
            obtain ⟨ha1, hb1, hl1⟩ := h1
            obtain ⟨ha2, hb2, hl2⟩ := h2
            refine ⟨hl1.trans hl2.symm, ?_⟩
            simp [List.take, ha1, hb1, ha2, hb2]

/-- Witness for C8 (amended): two concrete chunks with equal keys. -/
theorem OctreeChunk.key_eq_level_and_pos_head_witness :
    ((OctreeChunk.init (ArrayLike.deferred 0)
        ⟨.int 1, .int 2, .int 0, .int 3⟩ ⟨[5, 6], [1, 1]⟩).key =
      Except.ok (5, 6, PyVal.int 2)) ∧
    ((OctreeChunk.init (ArrayLike.ndarray [4])
        ⟨.int 9, .int 2, .int 1, .int 0⟩ ⟨[5, 6, 8], [1, 1]⟩).key =
      Except.ok (5, 6, PyVal.int 2)) ∧
    ((OctreeChunk.init (ArrayLike.deferred 0)
        ⟨.int 1, .int 2, .int 0, .int 3⟩
        ⟨[5, 6], [1, 1]⟩).location.level_index =
      (OctreeChunk.init (ArrayLike.ndarray [4])
        ⟨.int 9, .int 2, .int 1, .int 0⟩
        ⟨[5, 6, 8], [1, 1]⟩).location.level_index ∧
     (OctreeChunk.init (ArrayLike.deferred 0)
        ⟨.int 1, .int 2, .int 0, .int 3⟩
        ⟨[5, 6], [1, 1]⟩).geom.pos.take 2 =
      (OctreeChunk.init (ArrayLike.ndarray [4])
        ⟨.int 9, .int 2, .int 1, .int 0⟩
        ⟨[5, 6, 8], [1, 1]⟩).geom.pos.take 2) :=
  ⟨rfl, rfl, OctreeChunk.key_eq_level_and_pos_head _ _ _ rfl rfl⟩

/-- C9: assigning materialized data through the setter and calling
`clear()` leave `location`, `geom` and the retained original-data
reference `_orig_data` unchanged; the geometry set at construction is
never recomputed or mutated by either operation. -/
theorem OctreeChunk.set_data_clear_frame (c : OctreeChunk)
    (arr : List Int) :
    ((c.apply_set_data (ArrayLike.ndarray arr)).location = c.location ∧
     (c.apply_set_data (ArrayLike.ndarray arr)).geom = c.geom ∧
     (c.apply_set_data (ArrayLike.ndarray arr))._orig_data =
       c._orig_data) ∧
    (c.clear.location = c.location ∧ c.clear.geom = c.geom ∧
     c.clear._orig_data = c._orig_data) :=
  ⟨⟨rfl, rfl, rfl⟩, ⟨rfl, rfl, rfl⟩⟩

/-- C10: the `data` setter accepts a materialized numpy array in every
load state — for any current data slot (deferred or already in memory)
and any value of the `loading` flag — and the resulting state always has
`in_memory = true` and `loading = false`. -/
theorem OctreeChunk.set_data_succeeds_any_state (dcur orig : ArrayLike)
    (loc : OctreeLocation) (g : OctreeChunkGeom) (b : Bool)
    (arr : List Int) :
    ∃ c', (OctreeChunk.mk dcur orig loc g b).set_data
        (ArrayLike.ndarray arr) = Except.ok c' ∧
      c'.in_memory = true ∧ c'.loading = false :=
  ⟨{ _data := .ndarray arr, _orig_data := orig, location := loc,
     geom := g, loading := false }, rfl, rfl, rfl⟩
